import Mathlib

/-!
Verification of the capture/compositing core of giffy-screen-wasm.

The development shallowly embeds the handlers of `DisplayRecorder.tsx` /
`App.tsx`: JS numbers are modelled as rationals, Blobs as byte lists,
MediaStreams as lists of tracks with a stopped flag, and the effectful
handlers either as pure state transformers or as event traces.
-/

namespace Giffy

/-- A recorded chunk: the byte contents of one Blob emitted by the
MediaRecorder. Blob bytes are modelled as a list of naturals. -/
abbrev Chunk := List Nat

/-- Size of a chunk, modelling `data.size` of a Blob. -/
def Chunk.size (c : Chunk) : Nat := c.length

/-- Handler registered for the dataavailable event (`dataAvailableHandler`):
`if (data.size === 0) return; setRecordedChunks([...recordedChunks, data]);`. -/
def dataAvailableHandler (recordedChunks : List Chunk) (data : Chunk) : List Chunk :=
  if Chunk.size data = 0 then recordedChunks else recordedChunks ++ [data]

/-- Delivering a whole sequence of dataavailable events to the handler, in
delivery order, starting from a given buffer. -/
def deliverAll (recordedChunks : List Chunk) (datas : List Chunk) : List Chunk :=
  datas.foldl dataAvailableHandler recordedChunks

/-- Concatenation of the recorded chunks, modelling `new Blob(recordedChunks)`
as handed to preview playback and to `fetchFile` in `transcodeHandler`. -/
def toBinary (recordedChunks : List Chunk) : Chunk := recordedChunks.flatten

/-- The compositing transform: the destX, destY and scale RefObjects of
DisplayRecorder, read by the draw step of `readChunk`. -/
structure TransformState where
  x : ℚ
  y : ℚ
  scale : ℚ
  deriving DecidableEq, Repr

/-- A VideoFrame delivered by the source reader, carrying its native display
dimensions. The id distinguishes frames of the stream. -/
structure Frame where
  frameId : Nat
  displayWidth : ℚ
  displayHeight : ℚ
  deriving DecidableEq, Repr

/-- The canvas element: its width and height attributes. -/
structure Canvas where
  width : ℚ
  height : ℚ
  deriving DecidableEq, Repr

/-- Arguments of the nine-argument `ctx.drawImage` call issued in `readChunk`:
source rectangle (srcX, srcY, srcW, srcH) and destination rectangle
(dstX, dstY, dstW, dstH). -/
structure DrawImageCall where
  srcX : ℚ
  srcY : ℚ
  srcW : ℚ
  srcH : ℚ
  dstX : ℚ
  dstY : ℚ
  dstW : ℚ
  dstH : ℚ
  deriving DecidableEq, Repr

/-- The drawImage call `readChunk` issues for a frame `value` under the
current transform: `ctx.drawImage(value, 0, 0, value.displayWidth,
value.displayHeight, destX.current, destY.current,
value.displayWidth * scale.current, value.displayHeight * scale.current)`. -/
def readChunkDraw (t : TransformState) (value : Frame) : DrawImageCall :=
  { srcX := 0, srcY := 0, srcW := value.displayWidth, srcH := value.displayHeight,
    dstX := t.x, dstY := t.y,
    dstW := value.displayWidth * t.scale, dstH := value.displayHeight * t.scale }

/-- An axis-aligned rectangle given by its two corners (x1, y1) and (x2, y2). -/
structure Rect where
  x1 : ℚ
  y1 : ℚ
  x2 : ℚ
  y2 : ℚ
  deriving DecidableEq, Repr

/-- Destination rectangle covered by a drawImage call: from (dstX, dstY)
extending by (dstW, dstH). -/
def DrawImageCall.destRect (c : DrawImageCall) : Rect :=
  { x1 := c.dstX, y1 := c.dstY, x2 := c.dstX + c.dstW, y2 := c.dstY + c.dstH }

/-- Observable canvas and frame effects of one run of the `readChunk` loop. -/
inductive CompositorEvent where
  | readRequest
  | clearRect (x y w h : ℚ)
  | drawImage (value : Frame) (call : DrawImageCall)
  | closeFrame (value : Frame)
  deriving DecidableEq, Repr

/-- The recursion of `readChunk` once canvas and ctx are known non-null:
`reader.read()` (the readRequest event); when the reader delivers a frame,
`clearRect(0, 0, canvas.width, canvas.height)`, the drawImage call, then
`value.close()`, then the recursive call; when the stream is exhausted,
`value` is undefined and the loop returns. The finite source stream is the
list of frames the reader delivers before reporting done. -/
def readChunkLoop (canvas : Canvas) (t : TransformState) : List Frame → List CompositorEvent
  | [] => [CompositorEvent.readRequest]
  | value :: rest =>
      CompositorEvent.readRequest ::
      CompositorEvent.clearRect 0 0 canvas.width canvas.height ::
      CompositorEvent.drawImage value (readChunkDraw t value) ::
      CompositorEvent.closeFrame value ::
      readChunkLoop canvas t rest

/-- The `readChunk` entry: returns with no effect when the canvas ref or the
2d context is null, else runs the loop. -/
def readChunk (canvasRef : Option Canvas) (ctx : Option Unit) (t : TransformState)
    (frames : List Frame) : List CompositorEvent :=
  match canvasRef, ctx with
  | none, _ => []
  | _, none => []
  | some canvas, some _ => readChunkLoop canvas t frames

/-- Frames drawn in a compositor trace, in trace order. -/
def drawnFrames (trace : List CompositorEvent) : List Frame :=
  trace.filterMap fun e =>
    match e with
    | CompositorEvent.drawImage value _ => some value
    | _ => none

/-- One MediaStreamTrack: its identity and whether `track.stop()` was called. -/
structure MediaStreamTrack where
  trackId : Nat
  stopped : Bool
  deriving DecidableEq, Repr

/-- A MediaStream as the list of its tracks. -/
structure MediaStream where
  tracks : List MediaStreamTrack
  deriving DecidableEq, Repr

/-- Does every track of an optional stream ref carry the stopped flag
(vacuously true for a null ref)? -/
def allTracksStopped : Option MediaStream → Bool
  | none => true
  | some s => s.tracks.all fun tr => tr.stopped

/-- The view values of App (`currentView`); the state the spec calls ready is
the source value loaded. -/
inductive View where
  | init
  | loaded
  | captured
  | converted
  deriving DecidableEq, Repr

/-- The MediaRecorder: the stream it records, whether the dataavailable
listener was added, and whether `start()` was called. -/
structure MediaRecorder where
  stream : MediaStream
  hasDataAvailableListener : Bool
  started : Bool
  deriving DecidableEq, Repr

/-- Mutable state of the DisplayRecorder component relevant to the capture
session: the isCapturing flag, the stream and recorder refs, plus the App
state it writes through its props (recordedChunks, currentView) and the
console error log. -/
structure SessionState where
  isCapturing : Bool
  inputStream : Option MediaStream
  captureStream : Option MediaStream
  mediaRecorder : Option MediaRecorder
  recordedChunks : List Chunk
  currentView : View
  consoleErrors : List String
  deriving DecidableEq, Repr

/-- Reading `getTracks()` through a nullable stream ref: a TypeError when the
ref is null, the track list otherwise. -/
def getTracksE : Option MediaStream → Except String (List MediaStreamTrack)
  | none => Except.error "TypeError: cannot read getTracks of null"
  | some s => Except.ok s.tracks

/-- `track.stop()` called on each track of a track list (the forEach). -/
def stopTrackList (ts : List MediaStreamTrack) : List MediaStreamTrack :=
  ts.map fun tr => { tr with stopped := true }

/-- The `stopHandler` of DisplayRecorder:
`setIsCapturing(false)`, then return early when inputStreamRef is null, else
stop every input-stream track; then return early when captureStreamRef is
null, else stop every capture-stream track and `setCurretView("captured")`.
Note the early return on a null inputStreamRef skips the capture-stream
teardown. -/
def stopHandler (st : SessionState) : Except String SessionState := do
  let st1 : SessionState := { st with isCapturing := false }
  match st1.inputStream with
  | none => return st1
  | some _ =>
    let ts ← getTracksE st1.inputStream
    let st2 := { st1 with inputStream := some { tracks := stopTrackList ts } }
    match st2.captureStream with
    | none => return st2
    | some _ =>
      let ts2 ← getTracksE st2.captureStream
      let st3 := { st2 with captureStream := some { tracks := stopTrackList ts2 } }
      return { st3 with currentView := View.captured }

/-- External inputs and outcomes of one `startHandler` call: the canvas ref,
the fps argument, and the results of the two fallible constructions inside
the try block (`canvas.captureStream(fps)` and `new MediaRecorder(...)`). -/
structure StartEnv where
  canvasRef : Option Canvas
  fps : ℚ
  captureStreamResult : Except String MediaStream
  mediaRecorderOk : Except String Unit
  deriving Repr

/-- Body of the try block of `startHandler`, returning the state reached
together with the error thrown at the point it escaped, if one was:
`setIsCapturing(true)`, `setRecordedChunks([])`, then
`captureStreamRef.current = canvas.captureStream(fps)`, then
`mediaRecorderRef.current = new MediaRecorder(captureStreamRef.current)`
with the dataavailable listener added and `start()` called. State effects
made before a throw persist. -/
def startTryBody (env : StartEnv) (st : SessionState) : SessionState × Option String :=
  let st1 := { st with isCapturing := true, recordedChunks := ([] : List Chunk) }
  match env.captureStreamResult with
  | Except.error e => (st1, some e)
  | Except.ok cap =>
    let st2 := { st1 with captureStream := some cap }
    match env.mediaRecorderOk with
    | Except.error e => (st2, some e)
    | Except.ok _ =>
      let recorder : MediaRecorder :=
        { stream := cap, hasDataAvailableListener := true, started := true }
      ({ st2 with mediaRecorder := some recorder }, none)

/-- The `startHandler` of DisplayRecorder: return early when the canvas ref is
null, else run the try block; a thrown error is caught and passed to
`console.error`, and the handler returns normally. -/
def startHandler (env : StartEnv) (st : SessionState) : SessionState :=
  match env.canvasRef with
  | none => st
  | some _ =>
    match startTryBody env st with
    | (st1, none) => st1
    | (st1, some e) => { st1 with consoleErrors := st1.consoleErrors ++ [e] }

/-- Observable events of one `selectHandler` call. -/
inductive SelectEvent where
  | stopTrack (trackId : Nat)
  | acquireDisplayMedia
  | compositor (e : CompositorEvent)
  deriving DecidableEq, Repr

/-- Is the event a `track.stop()` on a prior-stream track? -/
def SelectEvent.isStop : SelectEvent → Bool
  | SelectEvent.stopTrack _ => true
  | _ => false

/-- Is the event a drawImage of the compositor? -/
def SelectEvent.isDraw : SelectEvent → Bool
  | SelectEvent.compositor (CompositorEvent.drawImage _ _) => true
  | _ => false

/-- The `selectHandler` of DisplayRecorder as an event trace: return early
when the canvas ref is null; when inputStreamRef holds a stream, call
`track.stop()` on each of its tracks; then await
`navigator.mediaDevices.getDisplayMedia(...)` (the acquireDisplayMedia
event) storing the new stream; then build the track processor and reader
from the new stream and run `readChunk` against it. The frames the new
stream will deliver are the `frames` parameter. -/
def selectHandler (canvasRef : Option Canvas) (inputStream : Option MediaStream)
    (t : TransformState) (frames : List Frame) : List SelectEvent :=
  match canvasRef with
  | none => []
  | some canvas =>
    (match inputStream with
     | none => []
     | some prior => prior.tracks.map fun tr => SelectEvent.stopTrack tr.trackId)
    ++ SelectEvent.acquireDisplayMedia ::
      (readChunk (some canvas) (some ()) t frames).map SelectEvent.compositor

/-- State of the App component driving the view state machine: the current
view, the recorded chunks, the gif object URL and the ffmpeg log lines. -/
structure AppState where
  currentView : View
  recordedChunks : List Chunk
  gif : Option Chunk
  ffmpegLog : List String
  deriving DecidableEq, Repr

/-- The `restartHandler` of App: `setCurretView("loaded")` and nothing else. -/
def restartHandler (st : AppState) : AppState :=
  { st with currentView := View.loaded }

/-- The `transcodeHandler` of App: writes `new Blob(recordedChunks)` to
ffmpeg, converts it to a gif (the external conversion is the `ffmpegRun`
parameter), stores the gif object URL, `setRecordedChunks([])`, and
`setCurretView("converted")`. -/
def transcodeHandler (ffmpegRun : Chunk → Chunk) (st : AppState) : AppState :=
  { st with gif := some (ffmpegRun (toBinary st.recordedChunks)),
            recordedChunks := ([] : List Chunk),
            currentView := View.converted }

/-- The scale-input change handler: `setScale(Number(currentTarget.value))`,
with no validation or clamping. -/
def scaleInputChangeHandler (st : TransformState) (v : ℚ) : TransformState :=
  { st with scale := v }

/-- The `canvasWheelHandler`:
`if (deltaY > 0) setScale(scale.current - 0.01) else if (deltaY < 0)
setScale(scale.current + 0.01)`, then a forced redraw. -/
def canvasWheelHandler (st : TransformState) (deltaY : ℚ) : TransformState :=
  if 0 < deltaY then { st with scale := st.scale - 1 / 100 }
  else if deltaY < 0 then { st with scale := st.scale + 1 / 100 }
  else st

/-- n repeated wheel gestures with positive deltaY (zoom out). -/
def wheelOutIter (st : TransformState) : Nat → TransformState
  | 0 => st
  | n + 1 => canvasWheelHandler (wheelOutIter st n) 1

/-- A session state in which only the capture (surface) stream exists, with
one live track. -/
def stopOnlyCaptureState : SessionState :=
  { isCapturing := true, inputStream := none,
    captureStream := some { tracks := [{ trackId := 0, stopped := false }] },
    mediaRecorder := none, recordedChunks := [], currentView := View.loaded,
    consoleErrors := [] }

/-- A session state in which both streams exist, each with one live track. -/
def stopBothState : SessionState :=
  { isCapturing := true,
    inputStream := some { tracks := [{ trackId := 0, stopped := false }] },
    captureStream := some { tracks := [{ trackId := 1, stopped := false }] },
    mediaRecorder := none, recordedChunks := [], currentView := View.loaded,
    consoleErrors := [] }

/-- A start environment whose `canvas.captureStream` construction throws. -/
def startFailEnv : StartEnv :=
  { canvasRef := some { width := 1280, height := 720 }, fps := 30,
    captureStreamResult := Except.error "NotSupportedError",
    mediaRecorderOk := Except.ok () }

/-- A session state holding one prior non-empty recorded chunk. -/
def startPriorState : SessionState :=
  { isCapturing := false, inputStream := none, captureStream := none,
    mediaRecorder := none, recordedChunks := [[1, 2, 3]],
    currentView := View.loaded, consoleErrors := [] }

/-- An app state in the captured view with a non-empty buffer and log. -/
def capturedAppState : AppState :=
  { currentView := View.captured, recordedChunks := [[1]], gif := none,
    ffmpegLog := ["frame=1"] }

/-- A second app state in the captured view, used for the transcode witness. -/
def capturedAppState2 : AppState :=
  { currentView := View.captured, recordedChunks := [[1, 2], [3]], gif := none,
    ffmpegLog := [] }

end Giffy

namespace Giffy

theorem deliverAll_cons (buf : List Chunk) (d : Chunk) (ds : List Chunk) :
    deliverAll buf (d :: ds) = deliverAll (dataAvailableHandler buf d) ds := rfl

theorem deliverAll_eq (datas : List Chunk) :
    ∀ buf : List Chunk,
      deliverAll buf datas = buf ++ datas.filter (fun d => d.length != 0) := by
  induction datas with
  | nil => intro buf; simp [deliverAll]
  | cons d ds ih =>
      intro buf
      rw [deliverAll_cons, ih]
      by_cases hd : d.length = 0
      · simp [dataAvailableHandler, Chunk.size, hd]
      · simp [dataAvailableHandler, Chunk.size, hd]

/-- C1: for every sequence of chunks delivered to the dataavailable handler,
the resulting buffer is exactly the non-empty chunks in delivery order,
`toBinary` of the resulting buffer is their in-order concatenation, and
appending a zero-length chunk leaves the buffer unchanged. -/
theorem C1_chunkBuffer (datas : List Chunk) (buf : List Chunk) (c : Chunk)
    (hc : Chunk.size c = 0) :
    deliverAll [] datas = datas.filter (fun d => d.length != 0) ∧
    toBinary (deliverAll [] datas) = (datas.filter (fun d => d.length != 0)).flatten ∧
    dataAvailableHandler buf c = buf := by
  refine ⟨?_, ?_, ?_⟩
  · simpa using deliverAll_eq datas []
  · rw [deliverAll_eq]; simp [toBinary]
  · simp [dataAvailableHandler, hc]

/-- Witness for C1 at a concrete delivery sequence with an empty chunk. -/
theorem C1_chunkBuffer_witness :
    deliverAll [] [[1, 2], [], [3]] = [[1, 2], [3]] ∧
    toBinary (deliverAll [] [[1, 2], [], [3]]) = [1, 2, 3] ∧
    dataAvailableHandler [[1, 2]] [] = [[1, 2]] := by
  obtain ⟨h1, h2, h3⟩ := C1_chunkBuffer [[1, 2], [], [3]] [[1, 2]] [] rfl
  refine ⟨?_, ?_, h3⟩
  · rw [h1]; rfl
  · rw [h2]; rfl

/-- C2: the drawImage call of the compositor covers the destination rectangle
from (transform.x, transform.y) to (transform.x + displayWidth * scale,
transform.y + displayHeight * scale); in particular for transform
(x 10, y 20, scale 2) and a 100 by 50 frame the rectangle runs from
(10, 20) to (210, 120). -/
theorem C2_drawRect (t : TransformState) (value : Frame) :
    (readChunkDraw t value).destRect =
      { x1 := t.x, y1 := t.y,
        x2 := t.x + value.displayWidth * t.scale,
        y2 := t.y + value.displayHeight * t.scale } ∧
    (readChunkDraw { x := 10, y := 20, scale := 2 }
        { frameId := 0, displayWidth := 100, displayHeight := 50 }).destRect =
      { x1 := 10, y1 := 20, x2 := 210, y2 := 120 } := by
  constructor
  · rfl
  · show Rect.mk _ _ _ _ = Rect.mk _ _ _ _
    norm_num [readChunkDraw, DrawImageCall.destRect]

theorem readChunkLoop_eq (canvas : Canvas) (t : TransformState) (frames : List Frame) :
    readChunkLoop canvas t frames =
      (frames.map fun value =>
        [CompositorEvent.readRequest,
         CompositorEvent.clearRect 0 0 canvas.width canvas.height,
         CompositorEvent.drawImage value (readChunkDraw t value),
         CompositorEvent.closeFrame value]).flatten
      ++ [CompositorEvent.readRequest] := by
  induction frames with
  | nil => rfl
  | cons value rest ih => simp [readChunkLoop, ih]

theorem drawnFrames_readChunkLoop (canvas : Canvas) (t : TransformState)
    (frames : List Frame) :
    drawnFrames (readChunkLoop canvas t frames) = frames := by
  induction frames with
  | nil => rfl
  | cons value rest ih => simp [readChunkLoop, drawnFrames, List.filterMap] at ih ⊢; exact ih

/-- C3: with a live canvas and context, the compositor loop over a finite
source stream draws exactly the frames of the stream, in arrival order,
none twice and none skipped; and the full trace shows that each iteration
issues the read request, clears the destination region, draws the frame
and closes it, in that order, before the next read request. -/
theorem C3_compositorLoop (canvas : Canvas) (t : TransformState) (frames : List Frame) :
    drawnFrames (readChunk (some canvas) (some ()) t frames) = frames ∧
    readChunk (some canvas) (some ()) t frames =
      (frames.map fun value =>
        [CompositorEvent.readRequest,
         CompositorEvent.clearRect 0 0 canvas.width canvas.height,
         CompositorEvent.drawImage value (readChunkDraw t value),
         CompositorEvent.closeFrame value]).flatten
      ++ [CompositorEvent.readRequest] :=
  ⟨drawnFrames_readChunkLoop canvas t frames, readChunkLoop_eq canvas t frames⟩

theorem stopHandler_none (st : SessionState) (h : st.inputStream = none) :
    stopHandler st = Except.ok { st with isCapturing := false } := by
  simp [stopHandler, h, pure, Except.pure]

theorem stopHandler_some_none (st : SessionState) (sIn : MediaStream)
    (h1 : st.inputStream = some sIn) (h2 : st.captureStream = none) :
    stopHandler st = Except.ok
      { st with isCapturing := false,
                inputStream := some { tracks := stopTrackList sIn.tracks } } := by
  simp [stopHandler, h1, h2, getTracksE, pure, Except.pure, bind, Except.bind]

theorem stopHandler_some_some (st : SessionState) (sIn sCap : MediaStream)
    (h1 : st.inputStream = some sIn) (h2 : st.captureStream = some sCap) :
    stopHandler st = Except.ok
      { st with isCapturing := false,
                inputStream := some { tracks := stopTrackList sIn.tracks },
                captureStream := some { tracks := stopTrackList sCap.tracks },
                currentView := View.captured } := by
  simp [stopHandler, h1, h2, getTracksE, pure, Except.pure, bind, Except.bind]

theorem allTracksStopped_stopTrackList (ts : List MediaStreamTrack) :
    allTracksStopped (some { tracks := stopTrackList ts }) = true := by
  simp [allTracksStopped, stopTrackList, List.all_map, Function.comp]

/-- C4 as stated is false: stopHandler, called on a state whose input
(source) stream ref is null while the capture (surface) stream exists with
a live track, returns early and leaves that track unstopped. -/
theorem C4_counterexample :
    stopHandler stopOnlyCaptureState =
      Except.ok { stopOnlyCaptureState with isCapturing := false } ∧
    stopOnlyCaptureState.captureStream.isSome = true ∧
    allTracksStopped
      ({ stopOnlyCaptureState with isCapturing := false } : SessionState).captureStream
      = false := by
  refine ⟨rfl, rfl, rfl⟩

/-- C4 amended: stopHandler never throws, also on a second consecutive call;
it stops every track of the SourceStream when that is present, and stops
every track of the SurfaceStream when the SourceStream is also present;
when the SourceStream is absent it returns early, clearing only the
isCapturing flag and leaving the SurfaceStream untouched. -/
theorem C4_stopHandler (st : SessionState) :
    (∃ st1, stopHandler st = Except.ok st1 ∧ ∃ st2, stopHandler st1 = Except.ok st2) ∧
    (∀ st1, stopHandler st = Except.ok st1 → st.inputStream.isSome = true →
      allTracksStopped st1.inputStream = true) ∧
    (∀ st1, stopHandler st = Except.ok st1 → st.inputStream.isSome = true →
      st.captureStream.isSome = true → allTracksStopped st1.captureStream = true) ∧
    (st.inputStream = none → stopHandler st = Except.ok { st with isCapturing := false }) := by
  rcases h1 : st.inputStream with _ | sIn
  · have hr := stopHandler_none st h1
    have hr2 : stopHandler { st with isCapturing := false } =
        Except.ok { st with isCapturing := false } :=
      stopHandler_none { st with isCapturing := false } h1
    refine ⟨⟨{ st with isCapturing := false }, hr,
      { st with isCapturing := false }, hr2⟩, ?_, ?_, fun _ => h1 ▸ hr⟩
    · intro st1 _ hsome; simp at hsome
    · intro st1 _ hsome; simp at hsome
  · rcases h2 : st.captureStream with _ | sCap
    · have hr := stopHandler_some_none st sIn h1 h2
      have hr2 := stopHandler_some_none
        { st with isCapturing := false,
                  inputStream := some { tracks := stopTrackList sIn.tracks } }
        { tracks := stopTrackList sIn.tracks } rfl h2
      refine ⟨⟨_, hr, _, hr2⟩, ?_, ?_, ?_⟩
      · intro st1 hok _
        obtain rfl : _ = st1 := by simpa using hr.symm.trans hok
        exact allTracksStopped_stopTrackList sIn.tracks
      · intro st1 hok _ hsome
        simp at hsome
      · intro hnone; simp at hnone
    · have hr := stopHandler_some_some st sIn sCap h1 h2
      have hr2 := stopHandler_some_some
        { st with isCapturing := false,
                  inputStream := some { tracks := stopTrackList sIn.tracks },
                  captureStream := some { tracks := stopTrackList sCap.tracks },
                  currentView := View.captured }
        { tracks := stopTrackList sIn.tracks }
        { tracks := stopTrackList sCap.tracks } rfl rfl
      refine ⟨⟨_, hr, _, hr2⟩, ?_, ?_, ?_⟩
      · intro st1 hok _
        obtain rfl : _ = st1 := by simpa using hr.symm.trans hok
        exact allTracksStopped_stopTrackList sIn.tracks
      · intro st1 hok _ _
        obtain rfl : _ = st1 := by simpa using hr.symm.trans hok
        exact allTracksStopped_stopTrackList sCap.tracks
      · intro hnone; simp at hnone

/-- Witness for the amended C4 at a state holding both streams, each with a
live track: the call succeeds, stops every track of both, and a second
consecutive call also succeeds. -/
theorem C4_stopHandler_witness :
    ∃ st1, stopHandler stopBothState = Except.ok st1 ∧
      allTracksStopped st1.inputStream = true ∧
      allTracksStopped st1.captureStream = true ∧
      ∃ st2, stopHandler st1 = Except.ok st2 := by
  obtain ⟨⟨st1, hok, hsecond⟩, hin, hcap, _⟩ := C4_stopHandler stopBothState
  exact ⟨st1, hok, hin st1 hok rfl, hcap st1 hok rfl rfl, hsecond⟩

theorem startTryBody_fields (env : StartEnv) (st : SessionState) :
    (startTryBody env st).1.recordedChunks = [] ∧
    (startTryBody env st).1.isCapturing = true ∧
    (startTryBody env st).1.consoleErrors = st.consoleErrors := by
  unfold startTryBody
  rcases h : env.captureStreamResult with e | cap
  · simp
  · rcases h2 : env.mediaRecorderOk with e2 | u <;> simp

/-- C5 as stated is false: startHandler with a live canvas whose
captureStream construction throws does not leave the ChunkBuffer unchanged;
the buffer held one chunk before the call and is empty after it, because it
is cleared before the fallible constructions run. -/
theorem C5_counterexample :
    (startHandler startFailEnv startPriorState).recordedChunks = [] ∧
    startPriorState.recordedChunks = [[1, 2, 3]] ∧
    (startHandler startFailEnv startPriorState).recordedChunks ≠
      startPriorState.recordedChunks := by
  refine ⟨rfl, rfl, by decide⟩

/-- C5 amended: when the canvas ref is live and a construction inside the try
block of startHandler throws, the error is caught, logged to the console
error sink, and the handler returns normally (non-fatal); but the state is
not left unchanged: the ChunkBuffer has been cleared and the isCapturing
flag set before the failure. -/
theorem C5_startHandler (env : StartEnv) (st : SessionState) (e : String)
    (hc : env.canvasRef.isSome = true)
    (hfail : (startTryBody env st).2 = some e) :
    (startHandler env st).recordedChunks = [] ∧
    (startHandler env st).isCapturing = true ∧
    (startHandler env st).consoleErrors = st.consoleErrors ++ [e] := by
  rcases hcv : env.canvasRef with _ | canvas
  · rw [hcv] at hc; simp at hc
  · obtain ⟨hb1, hb2, hb3⟩ := startTryBody_fields env st
    rcases hb : startTryBody env st with ⟨st1, err⟩
    rw [hb] at hfail hb1 hb2 hb3
    simp only at hfail hb1 hb2 hb3
    subst hfail
    simp [startHandler, hcv, hb, hb1, hb2, hb3]

/-- Witness for the amended C5 at the concrete failing environment and a
state holding one prior chunk. -/
theorem C5_startHandler_witness :
    (startHandler startFailEnv startPriorState).recordedChunks = [] ∧
    (startHandler startFailEnv startPriorState).isCapturing = true ∧
    (startHandler startFailEnv startPriorState).consoleErrors =
      startPriorState.consoleErrors ++ ["NotSupportedError"] :=
  C5_startHandler startFailEnv startPriorState "NotSupportedError" rfl rfl

/-- C6: when selectHandler runs with a live canvas while a prior source
stream is active, the trace starts with a track.stop() for every track of
the prior stream, in order; the acquisition of the new stream comes only
after all of them; after the acquisition no further track of the prior
stream is stopped (they were all already stopped); and no compositor draw
occurs at or before the acquisition position. -/
theorem C6_selectHandler (canvas : Canvas) (prior : MediaStream)
    (t : TransformState) (frames : List Frame) :
    (selectHandler (some canvas) (some prior) t frames).take prior.tracks.length
      = prior.tracks.map (fun tr => SelectEvent.stopTrack tr.trackId) ∧
    (selectHandler (some canvas) (some prior) t frames)[prior.tracks.length]?
      = some SelectEvent.acquireDisplayMedia ∧
    (∀ e ∈ (selectHandler (some canvas) (some prior) t frames).drop
        (prior.tracks.length + 1), SelectEvent.isStop e = false) ∧
    (∀ e ∈ (selectHandler (some canvas) (some prior) t frames).take
        (prior.tracks.length + 1), SelectEvent.isDraw e = false) := by
  have hlen : (prior.tracks.map fun tr => SelectEvent.stopTrack tr.trackId).length
      = prior.tracks.length := List.length_map _ _
  refine ⟨?_, ?_, ?_, ?_⟩
  · show (_ ++ _ :: _).take _ = _
    exact List.take_left' hlen
  · show (_ ++ _ :: _)[prior.tracks.length]? = _
    rw [List.getElem?_append_right (le_of_eq hlen)]
    simp [hlen]
  · intro e he
    rw [show prior.tracks.length + 1 = prior.tracks.length + 1 from rfl] at he
    have : (selectHandler (some canvas) (some prior) t frames).drop
        (prior.tracks.length + 1)
        = (readChunk (some canvas) (some ()) t frames).map SelectEvent.compositor := by
      show (_ ++ _ :: _).drop _ = _
      rw [← List.drop_drop]
      rw [List.drop_left' hlen]
      rfl
    rw [this] at he
    obtain ⟨ce, _, rfl⟩ := List.mem_map.mp he
    rfl
  · intro e he
    have : (selectHandler (some canvas) (some prior) t frames).take
        (prior.tracks.length + 1)
        = (prior.tracks.map fun tr => SelectEvent.stopTrack tr.trackId)
          ++ [SelectEvent.acquireDisplayMedia] := by
      show (_ ++ _ :: _).take _ = _
      rw [← hlen, List.take_append 1]
      rfl
    rw [this] at he
    rcases List.mem_append.mp he with hA | hB
    · obtain ⟨tr, _, rfl⟩ := List.mem_map.mp hA
      rfl
    · rw [List.mem_singleton.mp hB]
      rfl

/-- Witness for C6 at a concrete one-track prior stream and a one-frame
source: the stop of track 7 precedes the acquisition and the draw. -/
theorem C6_selectHandler_witness :
    (selectHandler (some { width := 4, height := 3 })
        (some { tracks := [{ trackId := 7, stopped := false }] })
        { x := 0, y := 0, scale := 1 }
        [{ frameId := 0, displayWidth := 2, displayHeight := 2 }]).take 1
      = [SelectEvent.stopTrack 7] ∧
    (selectHandler (some { width := 4, height := 3 })
        (some { tracks := [{ trackId := 7, stopped := false }] })
        { x := 0, y := 0, scale := 1 }
        [{ frameId := 0, displayWidth := 2, displayHeight := 2 }])[1]?
      = some SelectEvent.acquireDisplayMedia ∧
    SelectEvent.isStop (SelectEvent.compositor CompositorEvent.readRequest) = false ∧
    SelectEvent.isDraw (SelectEvent.stopTrack 7) = false := by
  obtain ⟨h1, h2, h3, h4⟩ := C6_selectHandler { width := 4, height := 3 }
    { tracks := [{ trackId := 7, stopped := false }] }
    { x := 0, y := 0, scale := 1 }
    [{ frameId := 0, displayWidth := 2, displayHeight := 2 }]
  refine ⟨h1, h2, ?_, ?_⟩
  · exact h3 (SelectEvent.compositor CompositorEvent.readRequest) (by decide)
  · exact h4 (SelectEvent.stopTrack 7) (by decide)

/-- C7 as stated is false: restartHandler on a captured state with a
non-empty buffer and log changes only the view; neither the ChunkBuffer nor
the log is cleared. -/
theorem C7_counterexample :
    capturedAppState.currentView = View.captured ∧
    (restartHandler capturedAppState).currentView = View.loaded ∧
    (restartHandler capturedAppState).recordedChunks ≠ [] ∧
    (restartHandler capturedAppState).ffmpegLog ≠ [] := by
  refine ⟨rfl, rfl, by decide, by decide⟩

/-- C7 amended: firing restart in state captured yields state ready (the
source value loaded); the ChunkBuffer and the log are left unchanged by the
transition itself. -/
theorem C7_restartHandler (st : AppState) (h : st.currentView = View.captured) :
    (restartHandler st).currentView = View.loaded ∧
    (restartHandler st).recordedChunks = st.recordedChunks ∧
    (restartHandler st).ffmpegLog = st.ffmpegLog :=
  ⟨rfl, rfl, rfl⟩

/-- Witness for the amended C7 at the concrete captured state. -/
theorem C7_restartHandler_witness :
    (restartHandler capturedAppState).currentView = View.loaded ∧
    (restartHandler capturedAppState).recordedChunks = capturedAppState.recordedChunks ∧
    (restartHandler capturedAppState).ffmpegLog = capturedAppState.ffmpegLog :=
  C7_restartHandler capturedAppState rfl

/-- C8: firing transcode-complete in state captured yields state converted
with the ChunkBuffer cleared; the produced gif is the external conversion
of the concatenated buffer. -/
theorem C8_transcodeHandler (ffmpegRun : Chunk → Chunk) (st : AppState)
    (h : st.currentView = View.captured) :
    (transcodeHandler ffmpegRun st).currentView = View.converted ∧
    (transcodeHandler ffmpegRun st).recordedChunks = [] ∧
    (transcodeHandler ffmpegRun st).gif =
      some (ffmpegRun (toBinary st.recordedChunks)) :=
  ⟨rfl, rfl, rfl⟩

/-- Witness for C8 at a concrete captured state and identity conversion. -/
theorem C8_transcodeHandler_witness :
    (transcodeHandler id capturedAppState2).currentView = View.converted ∧
    (transcodeHandler id capturedAppState2).recordedChunks = [] ∧
    (transcodeHandler id capturedAppState2).gif =
      some (id (toBinary capturedAppState2.recordedChunks)) :=
  C8_transcodeHandler id capturedAppState2 rfl

theorem wheelOutIter_scale (st : TransformState) (n : Nat) :
    (wheelOutIter st n).scale = st.scale - n / 100 := by
  induction n with
  | zero => simp [wheelOutIter]
  | succ n ih =>
      simp only [wheelOutIter, canvasWheelHandler]
      rw [if_pos (by norm_num : (0 : ℚ) < 1)]
      simp only [ih]
      push_cast
      ring

/-- C9: no scale mutation validates or clamps: the direct numeric input
stores exactly the supplied value, each zoom-out wheel gesture subtracts
0.01 from the running scale, and repeatedly zooming out drives the scale to
zero or below, with no lower bound. -/
theorem C9_noScaleValidation (st : TransformState) (v : ℚ) :
    (scaleInputChangeHandler st v).scale = v ∧
    (∀ n : Nat, (wheelOutIter st n).scale = st.scale - n / 100) ∧
    (∃ n : Nat, (wheelOutIter st n).scale ≤ 0) := by
  refine ⟨rfl, wheelOutIter_scale st, ⟨⌈(100 : ℚ) * st.scale⌉₊, ?_⟩⟩
  rw [wheelOutIter_scale]
  have h := Nat.le_ceil ((100 : ℚ) * st.scale)
  linarith

/-- C10: one wheel gesture changes the scale by exactly 0.01 regardless of
the gesture magnitude: minus 0.01 for positive deltaY, plus 0.01 for
negative deltaY, unchanged for zero deltaY. -/
theorem C10_wheelStep (st : TransformState) (deltaY : ℚ) :
    (0 < deltaY →
      canvasWheelHandler st deltaY = { st with scale := st.scale - 1 / 100 }) ∧
    (deltaY < 0 →
      canvasWheelHandler st deltaY = { st with scale := st.scale + 1 / 100 }) ∧
    (deltaY = 0 → canvasWheelHandler st deltaY = st) := by
  refine ⟨?_, ?_, ?_⟩
  · intro h
    simp [canvasWheelHandler, h]
  · intro h
    have h1 : ¬ (0 < deltaY) := by linarith
    simp [canvasWheelHandler, h, h1]
  · intro h
    subst h
    simp [canvasWheelHandler]

/-- Witness for C10 at scale one half with wheel deltas 3, minus 3 and 0. -/
theorem C10_wheelStep_witness :
    canvasWheelHandler { x := 0, y := 0, scale := 1 / 2 } 3 =
      { x := 0, y := 0, scale := 1 / 2 - 1 / 100 } ∧
    canvasWheelHandler { x := 0, y := 0, scale := 1 / 2 } (-3) =
      { x := 0, y := 0, scale := 1 / 2 + 1 / 100 } ∧
    canvasWheelHandler { x := 0, y := 0, scale := 1 / 2 } 0 =
      { x := 0, y := 0, scale := 1 / 2 } := by
  obtain ⟨ha, _, _⟩ := C10_wheelStep { x := 0, y := 0, scale := 1 / 2 } 3
  obtain ⟨_, hb, _⟩ := C10_wheelStep { x := 0, y := 0, scale := 1 / 2 } (-3)
  obtain ⟨_, _, hc⟩ := C10_wheelStep { x := 0, y := 0, scale := 1 / 2 } 0
  exact ⟨ha (by norm_num), hb (by norm_num), hc rfl⟩

end Giffy
